import Mathlib

/-!
Shallow embedding of the KMFNYC meme-generation pipeline:
the synthesis orchestrator (src/unnamed/part_001), the Supabase-backed
approval store (src/services/feedbackService.ts) and the review-session
approval handler (src/App.tsx). External network effects (Gemini, DALL-E,
Supabase) are modelled as explicit outcome parameters; every source
function that can throw is typed in `Except MemeError`.
-/

namespace KMFNYC

/-- The two image-generation providers, the string union
`'gemini' | 'dalle'` of the source. -/
inductive Model where
  | gemini
  | dalle
deriving DecidableEq

/-- Artifact approval status, the string union
`'pending' | 'approved' | 'rejected'` of the source. -/
inductive Status where
  | pending
  | approved
  | rejected
deriving DecidableEq

/-- `MemeConcept` from src/unnamed/part_000. -/
structure MemeConcept where
  topText : String
  bottomText : String
  imagePrompt : String
deriving DecidableEq

/-- `GeneratedMeme` from src/unnamed/part_000. -/
structure GeneratedMeme where
  id : String
  topText : String
  bottomText : String
  imagePrompt : String
  imageUrl : String
  altText : String
  status : Status
  modelUsed : Model
deriving DecidableEq

/-- Every error the embedded functions can throw, one constructor per
`throw new Error(...)` site relevant to the claims, plus the taxonomy
names used by the spec (`MissingCredential` has no throw site in the
source; it exists so that never-raised statements are expressible). -/
inductive MemeError where
  /-- part_001:251 — the concept list is null or empty. -/
  | generationEmpty
  /-- spec taxonomy only: a providerB call without a key; no source path throws it. -/
  | missingCredential
  /-- feedbackService.ts:30 — Supabase URL and anon key are required. -/
  | clientConfig
  /-- feedbackService.ts:178 — upload blocked by a storage security policy. -/
  | storagePolicyDenied
  /-- feedbackService.ts:182 — the memes storage bucket was not found. -/
  | storageBucketNotFound
  /-- feedbackService.ts:184 — generic image-upload failure. -/
  | storageGeneric
  /-- feedbackService.ts:212 — metadata insert blocked by a table security policy. -/
  | metadataPolicyDenied
  /-- feedbackService.ts:215 — generic metadata-insert failure, keeps the backend message. -/
  | metadataGeneric (message : String)
deriving DecidableEq

/-- Character-list version of `String.startsWith`. -/
def startsWithChars : List Char → List Char → Bool
  | [], _ => true
  | _ :: _, [] => false
  | p :: ps, c :: cs => p = c && startsWithChars ps cs

/-- `pat` occurs as a contiguous run somewhere in the character list. -/
def containsChars (pat : List Char) : List Char → Bool
  | [] => startsWithChars pat []
  | c :: cs => startsWithChars pat (c :: cs) || containsChars pat cs

/-- JS `String.prototype.includes`: `pat` occurs somewhere in `s`. -/
def strIncludes (s pat : String) : Bool :=
  containsChars pat.data s.data

/-- JS `String.prototype.toLowerCase` on the ASCII messages the store
produces: lowercase every character. -/
def strToLower (s : String) : String :=
  String.mk (s.data.map Char.toLower)

/-- The `{ gemini: number; dalle: number }` preference ratio returned by
`getModelPreference`. -/
structure ModelPreference where
  gemini : Nat
  dalle : Nat
deriving DecidableEq

/-- `getModelPreference` (feedbackService.ts:225-239), with the approval
history (the `modelUsed` column of the rows `getApprovedMemes` returned)
passed explicitly instead of fetched from Supabase. -/
def getModelPreference (approved : List Model) : ModelPreference :=
  if approved.length = 0 then
    { gemini := 3, dalle := 2 }
  else
    let dalleCount := (approved.filter (fun m => m = Model.dalle)).length
    let geminiCount := approved.length - dalleCount
    if dalleCount > geminiCount then
      { gemini := 2, dalle := 3 }
    else
      { gemini := 3, dalle := 2 }

/-- Outcome of the Supabase storage upload sub-step of `addApprovedMeme`,
an external effect: either it succeeded or it failed with the backend's
error message. -/
inductive UploadOutcome where
  | ok
  | err (message : String)
deriving DecidableEq

/-- Outcome of the Supabase metadata insert sub-step of `addApprovedMeme`. -/
inductive InsertOutcome where
  | ok
  | err (message : String)
deriving DecidableEq

/-- Error classification of a failed storage upload,
feedbackService.ts:172-184: lowercase the message, then policy-denied
checks first, bucket-not-found second, generic otherwise. -/
def classifyUploadError (message : String) : MemeError :=
  let m := (strToLower message)
  if strIncludes m "security policy" || strIncludes m "violates row-level security" then
    MemeError.storagePolicyDenied
  else if strIncludes m "not found" then
    MemeError.storageBucketNotFound
  else
    MemeError.storageGeneric

/-- Error classification of a failed metadata insert,
feedbackService.ts:206-215. -/
def classifyInsertError (message : String) : MemeError :=
  let m := (strToLower message)
  if strIncludes m "security policy for table" || strIncludes m "violates row-level security" then
    MemeError.metadataPolicyDenied
  else
    MemeError.metadataGeneric message

/-- Result of one `addApprovedMeme` call: the returned/thrown value and
whether the metadata insert sub-step was reached. -/
structure StoreWriteOutcome where
  result : Except MemeError Unit
  insertAttempted : Bool

/-- `addApprovedMeme` (feedbackService.ts:155-219): require credentials
(`getSupabaseClient`, line 29 throws on a missing URL or key), attempt
the image upload, throw a classified error on upload failure without
touching the table, otherwise attempt the metadata insert and classify
its failure. The two sub-step outcomes stand in for the Supabase calls. -/
def addApprovedMeme (supabaseUrl supabaseAnonKey : String)
    (upload : UploadOutcome) (insert : InsertOutcome) : StoreWriteOutcome :=
  if supabaseUrl = "" ∨ supabaseAnonKey = "" then
    { result := Except.error MemeError.clientConfig, insertAttempted := false }
  else
    match upload with
    | UploadOutcome.err message =>
        { result := Except.error (classifyUploadError message), insertAttempted := false }
    | UploadOutcome.ok =>
        match insert with
        | InsertOutcome.err message =>
            { result := Except.error (classifyInsertError message), insertAttempted := true }
        | InsertOutcome.ok =>
            { result := Except.ok (), insertAttempted := true }

/-- Placeholder SVG data URI returned when Gemini image generation fails
(part_001:6). -/
def GEMINI_PLACEHOLDER_IMAGE_URL : String :=
  "data:image/svg+xml;base64,PHN2ZyB3aWR0aD0iNTEyIiBoZWlnaHQ9IjUxMiIgdmlld0JveD0iMCAwIDUxMiA1MTIiIHhtbG5zPSJodHRwOi8vd3d3LnczLm9yZy8yMDAwL3N2ZyI+PHJlY3QgZmlsbD0iIzExMTgyNyIgd2lkdGg9IjUxMiIgaGVpZhtPSI1MTIiLz48dGV4dCB4PSI1MCUiIHk9IjQ4JSIgZG9taW5hbnQtYmFzZWxpbmU9Im1pZGRsZSIgdGV4dC1hbmNob3I9Im1pZGRsZSIgZm9udC1mYW1pbHk9InNhbnMtc2VyaWYiIGZvbnQtc2l6ZT0iMzJweCIgZmlsbD0iI2Y4NzE3MSIgZm9udC13ZWlnaHQ9ImJvbGQiPlRIRSBBSSBHT1QgU0hZPC90ZXh0Pjx0ZXh0IHg9IjUwJSIgeT0iNTglIiBkb21pbmFhbnQtYmFzZWxpbmU9Im1pZGRsZSIgdGV4dC1hbmNob3I9Im1pZGRsZSIgZm9udC1mYW1pbHk9InNhbnMtc2VyaWYiIGZvbnQtc2l6ZT0iMThweCIgZmlsbD0iI2VhYTNmIj5JbWFnZSBnZW5lcmF0aW9uIGZhaWxlZC48L3RleHQ+PC9zdmc+"

/-- Placeholder SVG data URI returned when DALL-E image generation fails
(part_001:9). -/
def DALLE_PLACEHOLDER_IMAGE_URL : String :=
  "data:image/svg+xml;base64,PHN2ZyB3aWR0aD0iNTEyIiBoZWlnaHQ9IjUxMiIgdmlld0JveD0iMCAwIDUxMiA1MTIiIHhtbG5zPSJodHRwOi8vd3d3LnczLm9yZy8yMDAwL3N2ZyI+PHJlY3QgZmlsbD0iIzFlMWI0YiIgd2lkdGg9IjUxMiIgaGVpZ2h0PSI1MTIiLz48dGV4dCB4PSI1MCUiIHk9IjQ4JSIgZG9taW5hbnQtYmFzZWxpbmU9Im1pZGRsZSIgdGV4dC1hbmNob3I9Im1pZGRsZSIgZm9udC1mYW1pbHk9InNhbnMtc2VyaWYiIGZvbnQtc2l6ZT0iMzJweCIgZmlsbD0iI2E3OGJmYSIgZm9udC1wZWlnaHQ9ImJvbGQiPkRBTFktRSAzIEFUIFRIRSBFQVNFTDwvdGV4dD48dGV4dCB4PSI1MCUiIHk9IjU4JSIgZG9taW5hbnQtYmFzZWxpbmU9Im1pZGRsZSIgdGV4dC1hbmNob3I9Im1pZGRsZSIgZm9udC1mYW1pbHk9InNhbnMtc2VyaWYiIGZvbnQtc2l6ZT0iMThweCIgZmlsbD0iI2M0YjVmZCI+U2ltdWxhdGluZyBPcGVuQUkgaW1hZ2UgZ2VuZXJhdGlvbi48L3RleHQ+PC9zdmc+"

/-- Outcome of one Gemini image-generation API call (the
`ai.models.generateContent` call inside `generateImage`), an external
effect: the response carried an inline-data part, carried none, or the
call threw. -/
inductive GeminiImageOutcome where
  | success (data : String) (mimeType : String)
  | noImagePart
  | threw
deriving DecidableEq

/-- The text sent to Gemini by `generateImage` (part_001:92). -/
def geminiImageRequestText (prompt : String) : String :=
  "In a vibrant, high contrast, pop art meme aesthetic: " ++ prompt ++
    ". IMPORTANT: The generated image must not contain any text, letters, words, or numbers. It should be purely visual."

/-- `generateImage` (part_001:85-117): Gemini image synthesis. On a
response with an inline-data part, return it as a data URI; on a missing
image part or a thrown exception, log and return the fixed placeholder.
No path throws. -/
def generateImage (geminiApi : String → GeminiImageOutcome) (prompt : String) :
    Except MemeError String :=
  match geminiApi (geminiImageRequestText prompt) with
  | GeminiImageOutcome.success data mimeType =>
      Except.ok ("data:" ++ mimeType ++ ";base64," ++ data)
  | GeminiImageOutcome.noImagePart => Except.ok GEMINI_PLACEHOLDER_IMAGE_URL
  | GeminiImageOutcome.threw => Except.ok GEMINI_PLACEHOLDER_IMAGE_URL

/-- Outcome of the one HTTP POST `generateImageWithDalle` issues to the
OpenAI images endpoint, an external effect. -/
inductive DalleOutcome where
  /-- 2xx response whose body carried `data[0].b64_json`. -/
  | okImage (b64 : String)
  /-- 2xx response without image data. -/
  | okNoImage
  /-- non-2xx response with its status and raw body. -/
  | httpError (status : Nat) (body : String)
  /-- the fetch itself threw. -/
  | networkError
deriving DecidableEq

/-- The prompt text sent to DALL-E by `generateImageWithDalle` (part_001:126). -/
def dalleRequestPrompt (prompt : String) : String :=
  prompt ++ ". IMPORTANT: The generated image must not contain any text, letters, words, or numbers. It should be purely visual."

/-- `generateImageWithDalle` (part_001:120-183): with an empty API key,
log a configuration error and return the DALL-E placeholder; otherwise
issue the HTTP call and return the image as a data URI on success or the
placeholder on any failure (network error, non-2xx status, missing image
data). No path throws. -/
def generateImageWithDalle (dalleApi : String → DalleOutcome)
    (prompt apiKey : String) : Except MemeError String :=
  if apiKey = "" then
    Except.ok DALLE_PLACEHOLDER_IMAGE_URL
  else
    match dalleApi (dalleRequestPrompt prompt) with
    | DalleOutcome.okImage b64 => Except.ok ("data:image/png;base64," ++ b64)
    | DalleOutcome.okNoImage => Except.ok DALLE_PLACEHOLDER_IMAGE_URL
    | DalleOutcome.httpError _ _ => Except.ok DALLE_PLACEHOLDER_IMAGE_URL
    | DalleOutcome.networkError => Except.ok DALLE_PLACEHOLDER_IMAGE_URL

/-- The `{ imageUrl, modelUsed }` record returned by
`generateMemeImageWithFallback`. -/
structure FallbackResult where
  imageUrl : String
  modelUsed : Model
deriving DecidableEq

/-- `generateMemeImageWithFallback` (part_001:185-208): if DALL-E is
requested but the OpenAI key is empty, substitute Gemini and report
`modelUsed = gemini`; otherwise call the requested provider and report
`modelUsed` equal to the requested model, whether or not the underlying
call degraded to a placeholder. -/
def generateMemeImageWithFallback (geminiApi : String → GeminiImageOutcome)
    (dalleApi : String → DalleOutcome) (prompt : String) (model : Model)
    (openAiApiKey : String) : Except MemeError FallbackResult :=
  if model = Model.dalle ∧ openAiApiKey = "" then do
    let imageUrl ← generateImage geminiApi prompt
    Except.ok { imageUrl := imageUrl, modelUsed := Model.gemini }
  else if model = Model.dalle then do
    let imageUrl ← generateImageWithDalle dalleApi prompt openAiApiKey
    Except.ok { imageUrl := imageUrl, modelUsed := model }
  else do
    let imageUrl ← generateImage geminiApi prompt
    Except.ok { imageUrl := imageUrl, modelUsed := model }

/-- Outcome of the Gemini text call inside `generateImageAltText`. -/
inductive AltTextOutcome where
  | success (text : String)
  | threw
deriving DecidableEq

/-- JS `replace(/^"|"$/g, ...)` with an empty replacement: drop one
leading and one trailing double-quote character if present. -/
def stripEdgeQuotes (s : String) : String :=
  let s1 := if s.startsWith "\"" then s.drop 1 else s
  if s1.endsWith "\"" then s1.dropRight 1 else s1

/-- The deterministic fallback alt text built from the concept itself
(part_001:239). -/
def altTextFallback (concept : MemeConcept) : String :=
  "Kiss My Face New York meme: " ++ concept.topText ++ " - " ++
    concept.bottomText ++ ". Image: " ++ (concept.imagePrompt.take 50) ++ "..."

/-- `generateImageAltText` (part_001:211-241): on success return the
model text trimmed and stripped of edge quotes; on any thrown failure
return the deterministic fallback built from the concept. No path
throws. -/
def generateImageAltText (altApi : MemeConcept → AltTextOutcome)
    (concept : MemeConcept) : Except MemeError String :=
  match altApi concept with
  | AltTextOutcome.success text => Except.ok (stripEdgeQuotes text.trim)
  | AltTextOutcome.threw => Except.ok (altTextFallback concept)

/-- The external effects one batch consumes: the two image backends, the
alt-text backend, and the `crypto.randomUUID()` supply (the id handed to
the nth concept of the batch). -/
structure SynthEnv where
  geminiApi : String → GeminiImageOutcome
  dalleApi : String → DalleOutcome
  altApi : MemeConcept → AltTextOutcome
  uuid : Nat → String

/-- The generator schedule of `processConceptsIntoMemes` (part_001:254-257):
`gemini` repeated `pref.gemini` times, then `dalle` repeated `pref.dalle`
times. -/
def generatorSchedule (pref : ModelPreference) : List Model :=
  List.replicate pref.gemini Model.gemini ++ List.replicate pref.dalle Model.dalle

/-- `generatorSchedule[index] || 'gemini'` (part_001:260): the scheduled
model at a concept index, defaulting to `gemini` past the end of the
schedule. -/
def scheduledModelAt (schedule : List Model) (index : Nat) : Model :=
  (schedule.get? index).getD Model.gemini

/-- The body of the per-concept async closure of `processConceptsIntoMemes`
(part_001:259-273), at concept `p.2` with batch index `p.1`. -/
def synthesizeOne (env : SynthEnv) (schedule : List Model)
    (openAiApiKey : String) (p : Nat × MemeConcept) :
    Except MemeError GeneratedMeme := do
  let scheduledModel := scheduledModelAt schedule p.1
  let r ← generateMemeImageWithFallback env.geminiApi env.dalleApi
    p.2.imagePrompt scheduledModel openAiApiKey
  let altText ← generateImageAltText env.altApi p.2
  Except.ok
    { id := env.uuid p.1
      topText := p.2.topText
      bottomText := p.2.bottomText
      imagePrompt := p.2.imagePrompt
      imageUrl := r.imageUrl
      altText := altText
      status := Status.pending
      modelUsed := r.modelUsed }

/-- `Promise.all` over a list of fallible computations: all results in
order, or the first raised error. -/
def promiseAll {α β : Type} (f : α → Except MemeError β) :
    List α → Except MemeError (List β)
  | [] => Except.ok []
  | a :: as => do
      let b ← f a
      let bs ← promiseAll f as
      Except.ok (b :: bs)

/-- `processConceptsIntoMemes` (part_001:244-276): reject with the
generation-empty error when the concept list is null or empty, otherwise
build the generator schedule from the preference ratio and produce one
pending meme per concept, in concept order. `none` stands for a null or
undefined concepts value. -/
def processConceptsIntoMemes (env : SynthEnv)
    (concepts : Option (List MemeConcept)) (modelPreference : ModelPreference)
    (openAiApiKey : String) : Except MemeError (List GeneratedMeme) :=
  match concepts with
  | none => Except.error MemeError.generationEmpty
  | some cs =>
      if cs.length = 0 then
        Except.error MemeError.generationEmpty
      else
        promiseAll (synthesizeOne env (generatorSchedule modelPreference) openAiApiKey) cs.enum

/-- `handleStatusChange` (App.tsx:163-169): set the status of every meme
whose id matches. -/
def handleStatusChange (id : String) (status : Status)
    (memes : List GeneratedMeme) : List GeneratedMeme :=
  memes.map fun meme => if meme.id = id then { meme with status := status } else meme

/-- `handleApprove` (App.tsx:171-191): do nothing unless the Supabase
connection is verified and a meme with the id exists; otherwise
optimistically mark the meme approved, run the store write, and on a
write failure revert the meme to pending. The store-write result stands
for the awaited `addApprovedMeme` call. -/
def handleApprove (isSupabaseConnected : Bool)
    (writeResult : Except MemeError Unit) (id : String)
    (memes : List GeneratedMeme) : List GeneratedMeme :=
  if isSupabaseConnected then
    match memes.find? (fun meme => meme.id = id) with
    | none => memes
    | some _ =>
        let optimistic := handleStatusChange id Status.approved memes
        match writeResult with
        | Except.ok _ => optimistic
        | Except.error _ => handleStatusChange id Status.pending optimistic
  else
    memes

/-- A concrete meme concept used to instantiate the claim theorems. -/
def sampleConcept : MemeConcept :=
  { topText := "me at the function"
    bottomText := "the function at me"
    imagePrompt := "a neon cat DJing at a rooftop party under a disco moon" }

/-- Five concrete concepts: one standard batch. -/
def sampleConcepts5 : List MemeConcept :=
  [ { topText := "top one", bottomText := "bottom one", imagePrompt := "prompt one" }
  , { topText := "top two", bottomText := "bottom two", imagePrompt := "prompt two" }
  , { topText := "top three", bottomText := "bottom three", imagePrompt := "prompt three" }
  , { topText := "top four", bottomText := "bottom four", imagePrompt := "prompt four" }
  , { topText := "top five", bottomText := "bottom five", imagePrompt := "prompt five" } ]

/-- A concrete, fully successful synthesis environment; `uuid n` is a
string of `n + 1` letters, so distinct indices get distinct ids. -/
def sampleEnv : SynthEnv :=
  { geminiApi := fun _ => GeminiImageOutcome.success "Z2VtaW5p" "image/png"
    dalleApi := fun _ => DalleOutcome.okImage "ZGFsbGU="
    altApi := fun _ => AltTextOutcome.success "sample alt text"
    uuid := fun n => String.mk (List.replicate (n + 1) 'u') }

/-- A concrete reviewable meme used to instantiate the session claims. -/
def sampleMeme : GeneratedMeme :=
  { id := "m1"
    topText := "top"
    bottomText := "bottom"
    imagePrompt := "prompt"
    imageUrl := "data:image/png;base64,QQ=="
    altText := "alt"
    status := Status.pending
    modelUsed := Model.gemini }

/-! ### Shared helper lemmas -/

/-- Binding a computation known to succeed just feeds its value on. -/
theorem except_bind_ok {ε α β : Type} {e : Except ε α} {a : α}
    (h : e = Except.ok a) (k : α → Except ε β) :
    (e >>= k) = k a := by
  rw [h]; rfl

/-- Every history element is counted once: the dalle entries and the
gemini entries partition the history. -/
theorem filter_model_length (l : List Model) :
    (l.filter (fun m => m = Model.dalle)).length +
      (l.filter (fun m => m = Model.gemini)).length = l.length := by
  induction l with
  | nil => rfl
  | cons a as ih =>
      cases a <;> simp [List.filter_cons] <;> omega

/-- The estimator only ever returns one of its two fixed ratios. -/
theorem getModelPreference_cases (history : List Model) :
    getModelPreference history = { gemini := 3, dalle := 2 } ∨
    getModelPreference history = { gemini := 2, dalle := 3 } := by
  unfold getModelPreference
  split_ifs
  · exact Or.inl rfl
  · by_cases h2 : (history.filter (fun m => m = Model.dalle)).length >
        history.length - (history.filter (fun m => m = Model.dalle)).length
    · exact Or.inr (if_pos h2)
    · exact Or.inl (if_neg h2)

/-- The Gemini image path returns on every outcome. -/
theorem generateImage_isOk (geminiApi : String → GeminiImageOutcome) (prompt : String) :
    ∃ u, generateImage geminiApi prompt = Except.ok u := by
  unfold generateImage
  cases geminiApi (geminiImageRequestText prompt) <;> exact ⟨_, rfl⟩

/-- The DALL-E image path returns on every outcome and for every key. -/
theorem generateImageWithDalle_isOk (dalleApi : String → DalleOutcome)
    (prompt apiKey : String) :
    ∃ u, generateImageWithDalle dalleApi prompt apiKey = Except.ok u := by
  unfold generateImageWithDalle
  by_cases hk : apiKey = ""
  · rw [if_pos hk]; exact ⟨_, rfl⟩
  · rw [if_neg hk]
    cases dalleApi (dalleRequestPrompt prompt) <;> exact ⟨_, rfl⟩

/-- The alt-text path returns on every outcome. -/
theorem generateImageAltText_isOk (altApi : MemeConcept → AltTextOutcome)
    (concept : MemeConcept) :
    ∃ t, generateImageAltText altApi concept = Except.ok t := by
  unfold generateImageAltText
  cases altApi concept <;> exact ⟨_, rfl⟩

/-- The fallback wrapper returns on every outcome. -/
theorem generateMemeImageWithFallback_isOk (geminiApi : String → GeminiImageOutcome)
    (dalleApi : String → DalleOutcome) (prompt : String) (model : Model)
    (openAiApiKey : String) :
    ∃ r, generateMemeImageWithFallback geminiApi dalleApi prompt model openAiApiKey =
      Except.ok r := by
  unfold generateMemeImageWithFallback
  split_ifs with h1 h2
  · obtain ⟨u, hu⟩ := generateImage_isOk geminiApi prompt
    exact ⟨_, by rw [except_bind_ok hu]⟩
  · obtain ⟨u, hu⟩ := generateImageWithDalle_isOk dalleApi prompt openAiApiKey
    exact ⟨_, by rw [except_bind_ok hu]⟩
  · obtain ⟨u, hu⟩ := generateImage_isOk geminiApi prompt
    exact ⟨_, by rw [except_bind_ok hu]⟩

/-- The per-concept closure always produces a meme carrying the concept
fields, the supplied fresh id, and pending status. -/
theorem synthesizeOne_isOk (env : SynthEnv) (schedule : List Model)
    (openAiApiKey : String) (p : Nat × MemeConcept) :
    ∃ m, synthesizeOne env schedule openAiApiKey p = Except.ok m ∧
      m.id = env.uuid p.1 ∧ m.topText = p.2.topText ∧ m.bottomText = p.2.bottomText ∧
      m.imagePrompt = p.2.imagePrompt ∧ m.status = Status.pending := by
  obtain ⟨r, hr⟩ := generateMemeImageWithFallback_isOk env.geminiApi env.dalleApi
    p.2.imagePrompt (scheduledModelAt schedule p.1) openAiApiKey
  obtain ⟨t, ht⟩ := generateImageAltText_isOk env.altApi p.2
  refine ⟨{ id := env.uuid p.1, topText := p.2.topText, bottomText := p.2.bottomText,
            imagePrompt := p.2.imagePrompt, imageUrl := r.imageUrl, altText := t,
            status := Status.pending, modelUsed := r.modelUsed }, ?_, rfl, rfl, rfl, rfl, rfl⟩
  unfold synthesizeOne
  simp only [except_bind_ok hr, except_bind_ok ht]

/-- Joining a list of computations that all succeed yields the list of
their results, in order. -/
theorem promiseAll_isOk {α β : Type} (f : α → Except MemeError β) :
    ∀ xs : List α, (∀ a ∈ xs, ∃ b, f a = Except.ok b) →
      ∃ ys, promiseAll f xs = Except.ok ys ∧ ys.length = xs.length ∧
        ∀ i (hx : i < xs.length) (hy : i < ys.length),
          f (xs.get ⟨i, hx⟩) = Except.ok (ys.get ⟨i, hy⟩)
  | [], _ => ⟨[], rfl, rfl, fun i hx => absurd hx (Nat.not_lt_zero i)⟩
  | a :: as, h => by
      obtain ⟨b, hb⟩ := h a (List.mem_cons_self a as)
      obtain ⟨ys, hys, hlen, hpt⟩ :=
        promiseAll_isOk f as (fun x hx => h x (List.mem_cons_of_mem a hx))
      refine ⟨b :: ys, ?_, by simp [hlen], ?_⟩
      · unfold promiseAll
        rw [except_bind_ok hb, except_bind_ok hys]
      · intro i hx hy
        cases i with
        | zero => simpa using hb
        | succ n => simpa using hpt n (by simpa using hx) (by simpa using hy)

/-! ### Claim theorems -/

/-- C5: `getModelPreference` returns (gemini 3, dalle 2) for an empty
history; for a non-empty history it returns (gemini 2, dalle 3) exactly
when the dalle entries strictly outnumber the gemini entries, and
(gemini 3, dalle 2) otherwise, ties included. -/
theorem claim_C5_estimator :
    getModelPreference [] = { gemini := 3, dalle := 2 } ∧
    ∀ history : List Model, history ≠ [] →
      getModelPreference history =
        (if (history.filter (fun m => m = Model.dalle)).length >
            (history.filter (fun m => m = Model.gemini)).length then
          { gemini := 2, dalle := 3 }
        else
          { gemini := 3, dalle := 2 }) := by
  refine ⟨rfl, ?_⟩
  intro history hne
  have hsum := filter_model_length history
  have hlen : ¬ history.length = 0 := by
    simpa [List.length_eq_zero] using hne
  have h2 : history.length - (history.filter (fun m => m = Model.dalle)).length =
      (history.filter (fun m => m = Model.gemini)).length := by omega
  unfold getModelPreference
  rw [if_neg hlen]
  simp only [h2]

theorem claim_C5_estimator_witness :
    getModelPreference [Model.dalle, Model.dalle, Model.gemini] =
      (if (([Model.dalle, Model.dalle, Model.gemini].filter
            (fun m => m = Model.dalle)).length >
          ([Model.dalle, Model.dalle, Model.gemini].filter
            (fun m => m = Model.gemini)).length) then
        { gemini := 2, dalle := 3 }
      else
        { gemini := 3, dalle := 2 }) :=
  claim_C5_estimator.2 [Model.dalle, Model.dalle, Model.gemini] (by decide)

/-- C10: for every approval history the estimator's two counts sum to 5,
so the generator schedule has length 5 and supplies a provider for every
index of a standard batch; at each such index `scheduledModelAt` returns
the schedule entry itself, never its out-of-range default. -/
theorem claim_C10_ratio_sum : ∀ history : List Model,
    (getModelPreference history).gemini + (getModelPreference history).dalle = 5 ∧
    (generatorSchedule (getModelPreference history)).length = 5 ∧
    ∀ i, i < 5 →
      ∃ m, (generatorSchedule (getModelPreference history)).get? i = some m ∧
        scheduledModelAt (generatorSchedule (getModelPreference history)) i = m := by
  intro history
  rcases getModelPreference_cases history with h | h <;> rw [h] <;> decide

theorem claim_C10_ratio_sum_witness :
    ∃ m, (generatorSchedule (getModelPreference [])).get? 4 = some m ∧
      scheduledModelAt (generatorSchedule (getModelPreference [])) 4 = m :=
  (claim_C10_ratio_sum []).2.2 4 (by decide)

/-- C9: with a null or empty concept list, `processConceptsIntoMemes`
aborts with the generation-empty error and produces no artifact list. -/
theorem claim_C9_empty_batch : ∀ (env : SynthEnv) (pref : ModelPreference) (key : String),
    processConceptsIntoMemes env none pref key =
      Except.error MemeError.generationEmpty ∧
    processConceptsIntoMemes env (some []) pref key =
      Except.error MemeError.generationEmpty :=
  fun _ _ _ => ⟨rfl, rfl⟩

/-- C6 counterexample: called with an empty API key, `generateImageWithDalle`
returns the DALL-E placeholder image; it does not raise `MissingCredential`
as the claim states. -/
theorem claim_C6_counterexample :
    generateImageWithDalle (fun _ => DalleOutcome.networkError) "a disco ball sunrise" "" =
      Except.ok DALLE_PLACEHOLDER_IMAGE_URL ∧
    generateImageWithDalle (fun _ => DalleOutcome.networkError) "a disco ball sunrise" "" ≠
      Except.error MemeError.missingCredential := by
  refine ⟨rfl, ?_⟩
  intro h
  rw [show generateImageWithDalle (fun _ => DalleOutcome.networkError) "a disco ball sunrise" "" =
      Except.ok DALLE_PLACEHOLDER_IMAGE_URL from rfl] at h
  exact Except.noConfusion h

/-- C6 amended: called without a credential (empty API key),
`generateImageWithDalle` logs the configuration error and returns the
DALL-E placeholder image to its caller; it never raises, on any input. -/
theorem claim_C6_amended : ∀ (dalleApi : String → DalleOutcome) (prompt : String),
    generateImageWithDalle dalleApi prompt "" = Except.ok DALLE_PLACEHOLDER_IMAGE_URL ∧
    ∀ apiKey : String, ∃ u, generateImageWithDalle dalleApi prompt apiKey = Except.ok u :=
  fun dalleApi prompt =>
    ⟨rfl, fun apiKey => generateImageWithDalle_isOk dalleApi prompt apiKey⟩

/-- C7: requesting DALL-E with an absent credential makes the fallback
wrapper substitute Gemini and report `modelUsed = gemini`; it never
raises (so never `MissingCredential`); in every other case it reports
`modelUsed` equal to the requested model, placeholder degradation or
not. -/
theorem claim_C7_fallback : ∀ (geminiApi : String → GeminiImageOutcome)
    (dalleApi : String → DalleOutcome) (prompt openAiApiKey : String) (model : Model),
    (∃ r, generateMemeImageWithFallback geminiApi dalleApi prompt model openAiApiKey =
      Except.ok r) ∧
    generateMemeImageWithFallback geminiApi dalleApi prompt model openAiApiKey ≠
      Except.error MemeError.missingCredential ∧
    (model = Model.dalle → openAiApiKey = "" →
      ∃ u, generateMemeImageWithFallback geminiApi dalleApi prompt model openAiApiKey =
        Except.ok { imageUrl := u, modelUsed := Model.gemini }) ∧
    (¬ (model = Model.dalle ∧ openAiApiKey = "") →
      ∃ u, generateMemeImageWithFallback geminiApi dalleApi prompt model openAiApiKey =
        Except.ok { imageUrl := u, modelUsed := model }) := by
  intro g d prompt key model
  obtain ⟨r, hr⟩ := generateMemeImageWithFallback_isOk g d prompt model key
  refine ⟨⟨r, hr⟩, by rw [hr]; exact fun h => Except.noConfusion h, ?_, ?_⟩
  · intro hm hk
    obtain ⟨u, hu⟩ := generateImage_isOk g prompt
    refine ⟨u, ?_⟩
    unfold generateMemeImageWithFallback
    rw [if_pos ⟨hm, hk⟩, except_bind_ok hu]
  · intro hnot
    unfold generateMemeImageWithFallback
    rw [if_neg hnot]
    by_cases hm : model = Model.dalle
    · rw [if_pos hm]
      obtain ⟨u, hu⟩ := generateImageWithDalle_isOk d prompt key
      exact ⟨u, by rw [except_bind_ok hu]⟩
    · rw [if_neg hm]
      obtain ⟨u, hu⟩ := generateImage_isOk g prompt
      exact ⟨u, by rw [except_bind_ok hu]⟩

theorem claim_C7_fallback_witness :
    ∃ u, generateMemeImageWithFallback (fun _ => GeminiImageOutcome.threw)
      (fun _ => DalleOutcome.networkError) "after the function" Model.dalle "" =
      Except.ok { imageUrl := u, modelUsed := Model.gemini } :=
  (claim_C7_fallback (fun _ => GeminiImageOutcome.threw)
    (fun _ => DalleOutcome.networkError) "after the function" "" Model.dalle).2.2.1 rfl rfl

/-- C8: the Gemini image path and the alt-text path return on every
outcome (they never raise); every failure outcome of the image path
yields the fixed placeholder and every failure of the alt-text path
yields the deterministic fallback built from the concept; hence the
per-concept synthesis closure of a batch always returns a meme. -/
theorem claim_C8_never_raise : ∀ (geminiApi : String → GeminiImageOutcome)
    (altApi : MemeConcept → AltTextOutcome) (prompt : String) (concept : MemeConcept)
    (env : SynthEnv) (schedule : List Model) (openAiApiKey : String)
    (p : Nat × MemeConcept),
    (∃ u, generateImage geminiApi prompt = Except.ok u) ∧
    (geminiApi (geminiImageRequestText prompt) = GeminiImageOutcome.noImagePart ∨
        geminiApi (geminiImageRequestText prompt) = GeminiImageOutcome.threw →
      generateImage geminiApi prompt = Except.ok GEMINI_PLACEHOLDER_IMAGE_URL) ∧
    (∃ t, generateImageAltText altApi concept = Except.ok t) ∧
    (altApi concept = AltTextOutcome.threw →
      generateImageAltText altApi concept = Except.ok (altTextFallback concept)) ∧
    (∃ m, synthesizeOne env schedule openAiApiKey p = Except.ok m) := by
  intro g a prompt concept env schedule key p
  refine ⟨generateImage_isOk g prompt, ?_, generateImageAltText_isOk a concept, ?_, ?_⟩
  · intro h
    unfold generateImage
    rcases h with h | h <;> rw [h]
  · intro h
    unfold generateImageAltText
    rw [h]
  · obtain ⟨m, hm, _⟩ := synthesizeOne_isOk env schedule key p
    exact ⟨m, hm⟩

theorem claim_C8_never_raise_witness :
    generateImage (fun _ => GeminiImageOutcome.threw) "a glitter thunderstorm" =
      Except.ok GEMINI_PLACEHOLDER_IMAGE_URL ∧
    generateImageAltText (fun _ => AltTextOutcome.threw) sampleConcept =
      Except.ok (altTextFallback sampleConcept) :=
  ⟨(claim_C8_never_raise (fun _ => GeminiImageOutcome.threw)
      (fun _ => AltTextOutcome.threw) "a glitter thunderstorm" sampleConcept
      sampleEnv [] "" (0, sampleConcept)).2.1 (Or.inr rfl),
   (claim_C8_never_raise (fun _ => GeminiImageOutcome.threw)
      (fun _ => AltTextOutcome.threw) "a glitter thunderstorm" sampleConcept
      sampleEnv [] "" (0, sampleConcept)).2.2.2.1 rfl⟩

/-- C2: with credentials present, a failed upload step makes
`addApprovedMeme` fail without ever attempting the metadata insert; the
thrown error is the upload classification, which is the policy-denied
variant whenever the message contains "security policy", the
bucket-not-found variant for a "not found" message that is not a policy
rejection, and in every case one of the three storage-error variants. -/
theorem claim_C2_store_write : ∀ (supabaseUrl supabaseAnonKey message : String)
    (insert : InsertOutcome),
    supabaseUrl ≠ "" → supabaseAnonKey ≠ "" →
    (addApprovedMeme supabaseUrl supabaseAnonKey (UploadOutcome.err message)
        insert).insertAttempted = false ∧
    (addApprovedMeme supabaseUrl supabaseAnonKey (UploadOutcome.err message)
        insert).result = Except.error (classifyUploadError message) ∧
    (classifyUploadError message = MemeError.storagePolicyDenied ∨
      classifyUploadError message = MemeError.storageBucketNotFound ∨
      classifyUploadError message = MemeError.storageGeneric) ∧
    (strIncludes (strToLower message) "security policy" = true →
      classifyUploadError message = MemeError.storagePolicyDenied) ∧
    (strIncludes (strToLower message) "not found" = true →
      strIncludes (strToLower message) "security policy" = false →
      strIncludes (strToLower message) "violates row-level security" = false →
      classifyUploadError message = MemeError.storageBucketNotFound) := by
  intro url key msg insert hu hk
  have hcond : ¬ (url = "" ∨ key = "") := by tauto
  refine ⟨?_, ?_, ?_, ?_, ?_⟩
  · unfold addApprovedMeme
    rw [if_neg hcond]
  · unfold addApprovedMeme
    rw [if_neg hcond]
  · simp only [classifyUploadError]
    split_ifs <;> simp
  · intro h
    simp [classifyUploadError, h]
  · intro h1 h2 h3
    simp [classifyUploadError, h1, h2, h3]

theorem claim_C2_store_write_witness :
    (addApprovedMeme "https://example.supabase.co" "anon-key"
        (UploadOutcome.err "new row violates row-level security policy")
        InsertOutcome.ok).insertAttempted = false ∧
    classifyUploadError "new row violates row-level security policy" =
      MemeError.storagePolicyDenied :=
  ⟨(claim_C2_store_write "https://example.supabase.co" "anon-key"
      "new row violates row-level security policy" InsertOutcome.ok
      (by decide) (by decide)).1,
   (claim_C2_store_write "https://example.supabase.co" "anon-key"
      "new row violates row-level security policy" InsertOutcome.ok
      (by decide) (by decide)).2.2.2.1 (by decide)⟩

/-- C1: when the approve action runs (connection verified, meme found),
a failed store write leaves every meme with the approved id at status
pending, never approved; the status stays approved exactly when the
store write succeeds. -/
theorem claim_C1_approve_revert : ∀ (writeResult : Except MemeError Unit) (id : String)
    (memes : List GeneratedMeme) (found : GeneratedMeme),
    memes.find? (fun meme => meme.id = id) = some found →
    ((∃ e, writeResult = Except.error e) →
      ∀ m ∈ handleApprove true writeResult id memes,
        m.id = id → m.status = Status.pending) ∧
    (writeResult = Except.ok () →
      ∀ m ∈ handleApprove true writeResult id memes,
        m.id = id → m.status = Status.approved) := by
  intro w id memes found hfind
  constructor
  · rintro ⟨e, rfl⟩ m hm hid
    unfold handleApprove at hm
    rw [if_pos rfl, hfind] at hm
    unfold handleStatusChange at hm
    rw [List.mem_map] at hm
    obtain ⟨b, hb, rfl⟩ := hm
    by_cases hbid : b.id = id
    · rw [if_pos hbid]
    · rw [if_neg hbid] at hid ⊢
      exact absurd hid hbid
  · rintro rfl m hm hid
    unfold handleApprove at hm
    rw [if_pos rfl, hfind] at hm
    unfold handleStatusChange at hm
    rw [List.mem_map] at hm
    obtain ⟨b, hb, rfl⟩ := hm
    by_cases hbid : b.id = id
    · rw [if_pos hbid]
    · rw [if_neg hbid] at hid ⊢
      exact absurd hid hbid

theorem claim_C1_approve_revert_witness :
    sampleMeme.status = Status.pending :=
  (claim_C1_approve_revert (Except.error MemeError.storageGeneric) "m1"
      [sampleMeme] sampleMeme (by decide)).1
    ⟨MemeError.storageGeneric, rfl⟩ sampleMeme (by decide) (by decide)

/-- C4: the schedule repeats gemini `g` times then dalle `d` times and
defaults to gemini past its end; for the (3, 2) ratio it is exactly
three geminis then two dalles, and a five-concept batch with a present
OpenAI key reports `modelUsed` in exactly that sequence. -/
theorem claim_C4_schedule :
    (∀ (pref : ModelPreference) (i : Nat), pref.gemini + pref.dalle ≤ i →
      scheduledModelAt (generatorSchedule pref) i = Model.gemini) ∧
    generatorSchedule { gemini := 3, dalle := 2 } =
      [Model.gemini, Model.gemini, Model.gemini, Model.dalle, Model.dalle] ∧
    (processConceptsIntoMemes sampleEnv (some sampleConcepts5)
          { gemini := 3, dalle := 2 } "sk-test").map
        (fun memes => memes.map GeneratedMeme.modelUsed) =
      Except.ok [Model.gemini, Model.gemini, Model.gemini, Model.dalle, Model.dalle] := by
  refine ⟨?_, rfl, rfl⟩
  intro pref i hi
  have hlen : (generatorSchedule pref).length ≤ i := by
    simpa [generatorSchedule] using hi
  unfold scheduledModelAt
  rw [List.get?_len_le hlen]
  rfl

theorem claim_C4_schedule_witness :
    scheduledModelAt (generatorSchedule { gemini := 3, dalle := 2 }) 7 = Model.gemini :=
  claim_C4_schedule.1 { gemini := 3, dalle := 2 } 7 (by decide)

/-- C3: for every non-empty concept list, the batch returns exactly one
meme per concept, in concept order (each meme carries its concept's
caption and prompt fields), every meme is pending and carries the fresh
id handed out for its index, and distinct indices get distinct ids
whenever the id supply is injective on the batch. -/
theorem claim_C3_batch : ∀ (env : SynthEnv) (concepts : List MemeConcept)
    (pref : ModelPreference) (openAiApiKey : String),
    concepts ≠ [] →
    ∃ memes, processConceptsIntoMemes env (some concepts) pref openAiApiKey =
        Except.ok memes ∧
      memes.length = concepts.length ∧
      (∀ i (hc : i < concepts.length) (hm : i < memes.length),
        (memes.get ⟨i, hm⟩).topText = (concepts.get ⟨i, hc⟩).topText ∧
        (memes.get ⟨i, hm⟩).bottomText = (concepts.get ⟨i, hc⟩).bottomText ∧
        (memes.get ⟨i, hm⟩).imagePrompt = (concepts.get ⟨i, hc⟩).imagePrompt ∧
        (memes.get ⟨i, hm⟩).status = Status.pending ∧
        (memes.get ⟨i, hm⟩).id = env.uuid i) ∧
      ((∀ i, i < concepts.length → ∀ j, j < concepts.length →
          env.uuid i = env.uuid j → i = j) →
        ∀ i j (hi : i < memes.length) (hj : j < memes.length), i ≠ j →
          (memes.get ⟨i, hi⟩).id ≠ (memes.get ⟨j, hj⟩).id) := by
  intro env cs pref key hne
  have hlen0 : ¬ cs.length = 0 := by simpa [List.length_eq_zero] using hne
  obtain ⟨ys, hys, hyslen, hpt⟩ := promiseAll_isOk
    (synthesizeOne env (generatorSchedule pref) key) cs.enum
    (fun a _ => Exists.imp (fun m hm => hm.1)
      (synthesizeOne_isOk env (generatorSchedule pref) key a))
  have hlen : ys.length = cs.length := by rw [hyslen, List.enum_length]
  have hfields : ∀ i (hc : i < cs.length) (hm : i < ys.length),
      (ys.get ⟨i, hm⟩).topText = (cs.get ⟨i, hc⟩).topText ∧
      (ys.get ⟨i, hm⟩).bottomText = (cs.get ⟨i, hc⟩).bottomText ∧
      (ys.get ⟨i, hm⟩).imagePrompt = (cs.get ⟨i, hc⟩).imagePrompt ∧
      (ys.get ⟨i, hm⟩).status = Status.pending ∧
      (ys.get ⟨i, hm⟩).id = env.uuid i := by
    intro i hc hm
    have hx : i < cs.enum.length := by rw [List.enum_length]; exact hc
    have heq := hpt i hx hm
    have henum : cs.enum.get ⟨i, hx⟩ = (i, cs.get ⟨i, hc⟩) := by
      simp [List.get_eq_getElem, List.getElem_enum]
    rw [henum] at heq
    obtain ⟨m, hmeq, hid, htop, hbot, hprompt, hstat⟩ :=
      synthesizeOne_isOk env (generatorSchedule pref) key (i, cs.get ⟨i, hc⟩)
    rw [hmeq] at heq
    have hmy : m = ys.get ⟨i, hm⟩ := by
      injection heq
    rw [← hmy]
    exact ⟨htop, hbot, hprompt, hstat, hid⟩
  refine ⟨ys, ?_, hlen, hfields, ?_⟩
  · show (if cs.length = 0 then Except.error MemeError.generationEmpty
      else promiseAll (synthesizeOne env (generatorSchedule pref) key) cs.enum) =
      Except.ok ys
    rw [if_neg hlen0]
    exact hys
  · intro hinj i j hi hj hij hcontra
    have hi' : i < cs.length := hlen ▸ hi
    have hj' : j < cs.length := hlen ▸ hj
    have h1 := (hfields i hi' hi).2.2.2.2
    have h2 := (hfields j hj' hj).2.2.2.2
    rw [h1, h2] at hcontra
    exact hij (hinj i hi' j hj' hcontra)

theorem claim_C3_batch_witness :
    ∃ memes, processConceptsIntoMemes sampleEnv (some sampleConcepts5)
        { gemini := 3, dalle := 2 } "sk-test" = Except.ok memes ∧
      memes.length = sampleConcepts5.length ∧
      (∀ i (hc : i < sampleConcepts5.length) (hm : i < memes.length),
        (memes.get ⟨i, hm⟩).topText = (sampleConcepts5.get ⟨i, hc⟩).topText ∧
        (memes.get ⟨i, hm⟩).bottomText = (sampleConcepts5.get ⟨i, hc⟩).bottomText ∧
        (memes.get ⟨i, hm⟩).imagePrompt = (sampleConcepts5.get ⟨i, hc⟩).imagePrompt ∧
        (memes.get ⟨i, hm⟩).status = Status.pending ∧
        (memes.get ⟨i, hm⟩).id = sampleEnv.uuid i) ∧
      ((∀ i, i < sampleConcepts5.length → ∀ j, j < sampleConcepts5.length →
          sampleEnv.uuid i = sampleEnv.uuid j → i = j) →
        ∀ i j (hi : i < memes.length) (hj : j < memes.length), i ≠ j →
          (memes.get ⟨i, hi⟩).id ≠ (memes.get ⟨j, hj⟩).id) :=
  claim_C3_batch sampleEnv sampleConcepts5 { gemini := 3, dalle := 2 } "sk-test"
    (by decide)

end KMFNYC
